import Mathlib

/-!
Verification of the vimo-ffi safety shim (Rust crate `vimo-ffi`):
a shallow embedding of `src/panic.rs`, `src/error.rs` and `src/string.rs`.

Modelling conventions:
* Rust text (`&str` / `String`) is a list of bytes (`List Nat`, each < 256 in
  practice); a Rust string value additionally satisfies `validUtf8`, the
  invariant the `str` type carries.
* A `*const c_char` / `*mut c_char` value (`CCharPtr`) is `none` for the null
  pointer or `some buf`, where `buf` is the byte sequence stored at the
  pointed-to location (for buffers produced by this layer it ends with the
  terminator byte 0).
* The error slot (`*mut *mut c_char`) is `none` when the caller passed null,
  or `some cell` where `cell` is the `CCharPtr` currently stored in the cell;
  functions that may write the slot return the post-state of the cell.
* A closure handed to the fault barrier is modelled by the observable outcome
  of running it: it either completes with a value or unwinds with a panic
  payload (`ExecOutcome`).  `catch_unwind` maps that outcome to a `Result`,
  exactly as `std::panic::catch_unwind` does.
-/

/-- A `c_char` pointer: null (`none`) or the bytes stored at the target. -/
abbrev CCharPtr := Option (List Nat)

/-- An error-slot argument `*mut *mut c_char`: null, or a cell holding a `CCharPtr`. -/
abbrev ErrorSlot := Option CCharPtr

/-- UTF-8 encoding of one Unicode scalar value (code point as `Nat`). -/
def utf8EncodeChar (c : Nat) : List Nat :=
  if c < 0x80 then [c]
  else if c < 0x800 then [0xC0 + c / 0x40, 0x80 + c % 0x40]
  else if c < 0x10000 then [0xE0 + c / 0x1000, 0x80 + c / 0x40 % 0x40, 0x80 + c % 0x40]
  else [0xF0 + c / 0x40000, 0x80 + c / 0x1000 % 0x40, 0x80 + c / 0x40 % 0x40, 0x80 + c % 0x40]

/-- The UTF-8 bytes of a string literal; used to carry Rust string literals into the byte model. -/
def utf8Bytes (s : String) : List Nat :=
  (s.data.map (fun c => utf8EncodeChar c.toNat)).flatten

/-- Is `b` a UTF-8 continuation byte (`0x80..=0xBF`)? -/
def isCont (b : Nat) : Bool :=
  decide (0x80 ≤ b ∧ b ≤ 0xBF)

/-- UTF-8 validity of a byte sequence, as checked by Rust `str::from_utf8`
(RFC 3629: no overlong forms, no surrogates, max U+10FFFF). -/
def validUtf8 : List Nat → Bool
  | [] => true
  | b :: rest =>
    if b < 0x80 then validUtf8 rest
    else
      match rest with
      | [] => false
      | c1 :: rest1 =>
        if 0xC2 ≤ b ∧ b ≤ 0xDF then isCont c1 && validUtf8 rest1
        else
          match rest1 with
          | [] => false
          | c2 :: rest2 =>
            if b = 0xE0 then (decide (0xA0 ≤ c1 ∧ c1 ≤ 0xBF) && isCont c2) && validUtf8 rest2
            else if (0xE1 ≤ b ∧ b ≤ 0xEC) ∨ b = 0xEE ∨ b = 0xEF then
              (isCont c1 && isCont c2) && validUtf8 rest2
            else if b = 0xED then (decide (0x80 ≤ c1 ∧ c1 ≤ 0x9F) && isCont c2) && validUtf8 rest2
            else
              match rest2 with
              | [] => false
              | c3 :: rest3 =>
                if b = 0xF0 then
                  (decide (0x90 ≤ c1 ∧ c1 ≤ 0xBF) && isCont c2 && isCont c3) && validUtf8 rest3
                else if 0xF1 ≤ b ∧ b ≤ 0xF3 then
                  (isCont c1 && isCont c2 && isCont c3) && validUtf8 rest3
                else if b = 0xF4 then
                  (decide (0x80 ≤ c1 ∧ c1 ≤ 0x8F) && isCont c2 && isCont c3) && validUtf8 rest3
                else false

/-- `FfiError` from `src/error.rs`: the closed error variant type of the layer. -/
inductive FfiError where
  | NullPointer
  | InvalidUtf8
  | StringContainsNull
  | Custom (msg : List Nat)
deriving DecidableEq

/-- The `Display` rendering of `FfiError` (the `#[error(...)]` attributes in
`src/error.rs`): each variant's canonical one-line text. -/
def FfiError.to_string : FfiError → List Nat
  | .NullPointer => utf8Bytes "null pointer"
  | .InvalidUtf8 => utf8Bytes "invalid UTF-8 string"
  | .StringContainsNull => utf8Bytes "string contains null byte"
  | .Custom msg => msg

/-- `set_error` from `src/error.rs`.  Null slot: return with no effect.
Otherwise `CString::new(msg)` succeeds iff `msg` has no embedded 0 byte; on
success the cell receives the allocated buffer (`msg` plus terminator), on
failure the write is skipped.  Returns the post-state of the slot. -/
def set_error (out_error : ErrorSlot) (msg : List Nat) : ErrorSlot :=
  match out_error with
  | none => none
  | some prev => if msg.contains 0 then some prev else some (some (msg ++ [0]))

/-- `check_not_null` from `src/error.rs`. -/
def check_not_null {α : Type} (ptr : Option α) : Except FfiError Unit :=
  match ptr with
  | none => .error .NullPointer
  | some _ => .ok ()

/-- `check_all_not_null` from `src/error.rs`: scan the pointers in order,
returning `Err(NullPointer)` at the first null, else `Ok(())`. -/
def check_all_not_null : List (Option Unit) → Except FfiError Unit
  | [] => .ok ()
  | p :: rest => if p.isNone then .error .NullPointer else check_all_not_null rest

/-- The view `CStr::from_ptr` takes of a non-null buffer: the bytes up to
(excluding) the first terminator byte. -/
def cstr_content (buf : List Nat) : List Nat :=
  buf.takeWhile (fun b => b != 0)

/-- `cstr_to_str` from `src/string.rs`: null fails with `NullPointer`,
otherwise `CStr::to_str` validates the content as UTF-8 and borrows it. -/
def cstr_to_str (ptr : CCharPtr) : Except FfiError (List Nat) :=
  match ptr with
  | none => .error .NullPointer
  | some buf =>
    if validUtf8 (cstr_content buf) then .ok (cstr_content buf) else .error .InvalidUtf8

/-- `cstr_to_string` from `src/string.rs`: `cstr_to_str` followed by an owning copy. -/
def cstr_to_string (ptr : CCharPtr) : Except FfiError (List Nat) :=
  (cstr_to_str ptr).map (fun s => s)

/-- `str_to_cstring` from `src/string.rs`: `CString::new` fails with
`StringContainsNull` iff the text has an embedded 0 byte; otherwise
`into_raw` hands out the buffer (text plus terminator). -/
def str_to_cstring (s : List Nat) : Except FfiError (List Nat) :=
  if s.contains 0 then .error .StringContainsNull else .ok (s ++ [0])

/-- `cstr_to_option_str` from `src/string.rs`: null maps to `Ok(None)`. -/
def cstr_to_option_str (ptr : CCharPtr) : Except FfiError (Option (List Nat)) :=
  match ptr with
  | none => .ok none
  | some _ => (cstr_to_str ptr).map some

/-- `cstr_to_str_or` from `src/string.rs`: null or invalid UTF-8 yields the default. -/
def cstr_to_str_or (ptr : CCharPtr) (dflt : List Nat) : List Nat :=
  match ptr with
  | none => dflt
  | some buf => if validUtf8 (cstr_content buf) then cstr_content buf else dflt

/-- The payload of a Rust panic (`Box<dyn Any + Send>`), as far as
`extract_panic_message` can observe it: a `&str`, a `String`, or anything else. -/
inductive PanicPayload where
  | strRef (msg : List Nat)
  | ownedString (msg : List Nat)
  | other
deriving DecidableEq

/-- `extract_panic_message` from `src/panic.rs`: downcast to `&str`, then to
`String`, else the fixed literal. -/
def extract_panic_message : PanicPayload → List Nat
  | .strRef s => s
  | .ownedString s => s
  | .other => utf8Bytes "unknown panic"

/-- The observable outcome of running a closure: it completes with a value or
unwinds with a panic payload. -/
inductive ExecOutcome (T : Type) where
  | completes (value : T)
  | unwinds (payload : PanicPayload)

/-- `std::panic::catch_unwind`: a completed closure yields `Ok`, an unwinding
closure is caught and yields `Err(payload)`. -/
def catch_unwind {T : Type} : ExecOutcome T → Except PanicPayload T
  | .completes v => .ok v
  | .unwinds p => .error p

/-- `ffi_boundary` from `src/panic.rs`.  `render` is the `Display` instance of
the closure's error type `E`.  Returns the call's value and the error slot's
post-state. -/
def ffi_boundary {T E : Type} (out_error : ErrorSlot) (default : T) (render : E → List Nat)
    (f : ExecOutcome (Except E T)) : T × ErrorSlot :=
  match catch_unwind f with
  | .ok (.ok result) => (result, out_error)
  | .ok (.error e) => (default, set_error out_error (render e))
  | .error p =>
    (default, set_error out_error (utf8Bytes "internal panic: " ++ extract_panic_message p))

/-- `ffi_boundary_simple` from `src/panic.rs`.  The second component is the
line written to stderr by `eprintln!` (`none` when nothing is printed). -/
def ffi_boundary_simple {T : Type} (default : T) (f : ExecOutcome T) : T × Option (List Nat) :=
  match catch_unwind f with
  | .ok result => (result, none)
  | .error p => (default, some (utf8Bytes "[vimo-ffi] panic caught: " ++ extract_panic_message p))

/-- `ffi_boundary_with_log` from `src/panic.rs`.  The second component is the
message delivered to the `on_panic` callback (`none` when it is not called). -/
def ffi_boundary_with_log {T : Type} (default : T) (f : ExecOutcome T) : T × Option (List Nat) :=
  match catch_unwind f with
  | .ok result => (result, none)
  | .error p => (default, some (extract_panic_message p))

/-! ### Helper lemmas -/

theorem contains_zero_false_iff (l : List Nat) : l.contains 0 = false ↔ ∀ b ∈ l, b ≠ 0 := by
  induction l with
  | nil =>
    constructor
    · intro _ b hb
      cases hb
    · intro _
      rfl
  | cons a t ih =>
    rw [List.contains_cons, Bool.or_eq_false_iff, beq_eq_false_iff_ne]
    constructor
    · intro ⟨h1, h2⟩ b hb
      cases hb with
      | head => exact fun hb0 => h1 hb0.symm
      | tail _ hm => exact (ih.mp h2) b hm
    · intro h
      exact ⟨fun h0 => h a (List.mem_cons_self a t) h0.symm,
        ih.mpr (fun b hb => h b (List.mem_cons_of_mem a hb))⟩

theorem contains_zero_true_iff (l : List Nat) : l.contains 0 = true ↔ 0 ∈ l := by
  induction l with
  | nil =>
    constructor
    · intro h
      cases h
    · intro h
      cases h
  | cons a t ih =>
    rw [List.contains_cons, Bool.or_eq_true, beq_iff_eq, List.mem_cons, ih]

theorem takeWhile_ne_zero_append (s : List Nat) (h : ∀ b ∈ s, b ≠ 0) :
    (s ++ [0]).takeWhile (fun b => b != 0) = s := by
  induction s with
  | nil => rfl
  | cons a t ih =>
    have ha : a ≠ 0 := h a (List.mem_cons_self a t)
    simp only [List.cons_append, List.takeWhile_cons]
    simp only [bne_iff_ne, ne_eq, ha, not_false_eq_true, if_true]
    rw [ih (fun b hb => h b (List.mem_cons_of_mem a hb))]

/-! ### Claim theorems -/

/-- Claim C1: every unit of work handed to any of the three fault-barrier
operations yields a normal return — a concrete value paired with the barrier's
side output — and a fault raised by the work is caught and converted to the
declared default value, for every outcome of the work. -/
theorem ffi_barrier_never_unwinds {T E : Type} (out : ErrorSlot) (d : T)
    (render : E → List Nat) (f : ExecOutcome (Except E T)) (g h : ExecOutcome T) :
    (∃ v s, ffi_boundary out d render f = (v, s)) ∧
    (∀ p, f = .unwinds p → (ffi_boundary out d render f).1 = d) ∧
    (∃ v l, ffi_boundary_simple d g = (v, l)) ∧
    (∀ p, g = .unwinds p → (ffi_boundary_simple d g).1 = d) ∧
    (∃ v l, ffi_boundary_with_log d h = (v, l)) ∧
    (∀ p, h = .unwinds p → (ffi_boundary_with_log d h).1 = d) := by
  refine ⟨⟨_, _, rfl⟩, ?_, ⟨_, _, rfl⟩, ?_, ⟨_, _, rfl⟩, ?_⟩ <;>
    (intro p hp; subst hp; rfl)

/-- Witness for C1 at concrete faulting works. -/
theorem ffi_barrier_never_unwinds_witness :
    (ffi_boundary (some none) (0 : Nat) (fun _ : Unit => []) (.unwinds .other)).1 = 0 ∧
    (ffi_boundary_simple (0 : Nat) (.unwinds .other)).1 = 0 ∧
    (ffi_boundary_with_log (0 : Nat) (.unwinds .other)).1 = 0 :=
  ⟨(ffi_barrier_never_unwinds (some none) 0 (fun _ : Unit => []) (.unwinds .other)
      (.unwinds .other) (.unwinds .other)).2.1 .other rfl,
   (ffi_barrier_never_unwinds (some none) 0 (fun _ : Unit => []) (.unwinds .other)
      (.unwinds .other) (.unwinds .other)).2.2.2.1 .other rfl,
   (ffi_barrier_never_unwinds (some none) 0 (fun _ : Unit => []) (.unwinds .other)
      (.unwinds .other) (.unwinds .other)).2.2.2.2.2 .other rfl⟩

/-- Claim C2 (amended): classification extracts the text of a `&str` or
`String` payload verbatim and yields the literal for any other payload; on a
faulting work, `ffi_boundary` returns the declared default and — provided the
prefixed message has no embedded terminator byte — writes the classified
message prefixed with the fixed internal-panic marker into the error slot. -/
theorem extract_and_panic_report {T E : Type} (s m : List Nat) (prev : CCharPtr) (d : T)
    (render : E → List Nat) (p : PanicPayload)
    (h : (utf8Bytes "internal panic: " ++ extract_panic_message p).contains 0 = false) :
    extract_panic_message (.strRef s) = s ∧
    extract_panic_message (.ownedString m) = m ∧
    extract_panic_message .other = utf8Bytes "unknown panic" ∧
    ffi_boundary (some prev) d render (.unwinds p) =
      (d, some (some ((utf8Bytes "internal panic: " ++ extract_panic_message p) ++ [0]))) := by
  refine ⟨rfl, rfl, rfl, ?_⟩
  have hmem := (contains_zero_false_iff _).mp h
  simp only [ffi_boundary, catch_unwind, set_error]
  rw [if_neg]
  intro hc
  exact absurd rfl (hmem 0 ((contains_zero_true_iff _).mp hc))

/-- Witness for C2: the spec's own example, a fault with message given by the
bytes of the text between quotes in the claim. -/
theorem extract_and_panic_report_witness :
    ffi_boundary (some none) false (fun e : FfiError => e.to_string)
        (.unwinds (.strRef (utf8Bytes "test panic"))) =
      (false, some (some (utf8Bytes "internal panic: test panic" ++ [0]))) :=
  ((extract_and_panic_report [] [] none false (fun e : FfiError => e.to_string)
      (.strRef (utf8Bytes "test panic")) (by decide)).2.2.2).trans (by decide)

/-- Counterexample to C2 as stated: a fault whose payload message is the single
terminator byte. The classified message cannot be marshaled, so nothing is
written into the (present) error slot: its cell still holds the null pointer. -/
theorem panic_report_skipped_on_nul_payload :
    ffi_boundary (some none) false (fun e : FfiError => e.to_string)
        (.unwinds (.strRef [0])) = (false, some none) ∧
    (some none : ErrorSlot) ≠
      some (some ((utf8Bytes "internal panic: " ++ [0]) ++ [0])) :=
  ⟨by decide, by decide⟩

/-- Claim C3 (amended): on an error-returning work, `ffi_boundary` returns the
declared default and — provided the rendered message has no embedded terminator
byte — writes exactly the rendered message, unprefixed, into the error slot. -/
theorem ffi_boundary_error_writes_message {T E : Type} (prev : CCharPtr) (d : T)
    (render : E → List Nat) (e : E) (h : (render e).contains 0 = false) :
    ffi_boundary (some prev) d render (.completes (.error e)) =
      (d, some (some (render e ++ [0]))) := by
  have hmem := (contains_zero_false_iff _).mp h
  simp only [ffi_boundary, catch_unwind, set_error]
  rw [if_neg]
  intro hc
  exact absurd rfl (hmem 0 ((contains_zero_true_iff _).mp hc))

/-- Witness for C3: the spec's example error message. -/
theorem ffi_boundary_error_writes_message_witness :
    ffi_boundary (some none) false (fun e : FfiError => e.to_string)
        (.completes (.error (.Custom (utf8Bytes "something failed")))) =
      (false, some (some (utf8Bytes "something failed" ++ [0]))) :=
  ffi_boundary_error_writes_message none false (fun e : FfiError => e.to_string)
    (.Custom (utf8Bytes "something failed")) (by decide)

/-- Counterexample to C3 as stated: a domain error whose rendered message is
the single terminator byte. The default is returned but nothing is written
into the (present) error slot: its cell still holds the null pointer. -/
theorem error_write_skipped_on_nul_message :
    ffi_boundary (some none) (0 : Nat) (fun _ : Unit => [0]) (.completes (.error ())) =
      (0, some none) ∧
    (some none : ErrorSlot) ≠ some (some ([0] ++ [0])) :=
  ⟨by decide, by decide⟩

/-- Claim C5: `set_error` on a null slot is a no-op for every message, and on a
present slot whose message has an embedded terminator byte the write is
silently skipped, leaving the cell's prior contents unchanged. -/
theorem set_error_degenerate_cases (msg : List Nat) (prev : CCharPtr) :
    (∀ m : List Nat, set_error none m = none) ∧
    (msg.contains 0 = true → set_error (some prev) msg = some prev) := by
  refine ⟨fun m => rfl, fun h => ?_⟩
  simp only [set_error]
  rw [if_pos h]

/-- Witness for C5 at a concrete message with an embedded terminator. -/
theorem set_error_degenerate_cases_witness :
    set_error none (utf8Bytes "internal panic: ") = none ∧
    set_error (some none) [104, 0] = some none :=
  ⟨(set_error_degenerate_cases [104, 0] none).1 (utf8Bytes "internal panic: "),
   (set_error_degenerate_cases [104, 0] none).2 (by decide)⟩

/-- Claim C6: for every valid text with no terminator byte, `str_to_cstring`
succeeds with the terminated buffer, and `cstr_to_str` on that buffer returns
exactly the original text. -/
theorem marshal_view_roundtrip (s : List Nat) (hv : validUtf8 s = true)
    (h0 : s.contains 0 = false) :
    str_to_cstring s = .ok (s ++ [0]) ∧ cstr_to_str (some (s ++ [0])) = .ok s := by
  have hmem := (contains_zero_false_iff s).mp h0
  have hc : cstr_content (s ++ [0]) = s := takeWhile_ne_zero_append s hmem
  constructor
  · simp only [str_to_cstring]
    rw [if_neg]
    intro hcon
    exact absurd rfl (hmem 0 ((contains_zero_true_iff s).mp hcon))
  · simp only [cstr_to_str, hc]
    rw [if_pos hv]

/-- Witness for C6 at a concrete two-byte ASCII text. -/
theorem marshal_view_roundtrip_witness :
    str_to_cstring [104, 105] = .ok [104, 105, 0] ∧
    cstr_to_str (some [104, 105, 0]) = .ok [104, 105] :=
  ⟨(marshal_view_roundtrip [104, 105] (by decide) (by decide)).1,
   (marshal_view_roundtrip [104, 105] (by decide) (by decide)).2⟩

/-- Claim C7: for every text with an embedded terminator byte, `str_to_cstring`
fails with `StringContainsNull` and hands out no buffer. -/
theorem marshal_fails_on_embedded_nul (s : List Nat) (h : s.contains 0 = true) :
    str_to_cstring s = .error .StringContainsNull := by
  simp only [str_to_cstring]
  rw [if_pos h]

/-- Witness for C7 at a concrete text with an interior terminator. -/
theorem marshal_fails_on_embedded_nul_witness :
    str_to_cstring [104, 0, 105] = .error .StringContainsNull :=
  marshal_fails_on_embedded_nul [104, 0, 105] (by decide)

/-- Claim C4: on a success-returning work, `ffi_boundary` returns the value
unchanged and the error slot's state is exactly what it was before the call. -/
theorem ffi_boundary_success_frame {T E : Type} (out : ErrorSlot) (d : T)
    (render : E → List Nat) (v : T) :
    ffi_boundary out d render (.completes (.ok v)) = (v, out) := rfl

/-- Claim C8: on the null pointer, `cstr_to_str` and `cstr_to_string` fail with
`NullPointer`, `cstr_to_option_str` succeeds with `none`, and `cstr_to_str_or`
returns the supplied default. -/
theorem null_pointer_view_behaviour (d : List Nat) :
    cstr_to_str none = .error .NullPointer ∧
    cstr_to_string none = .error .NullPointer ∧
    cstr_to_option_str none = .ok none ∧
    cstr_to_str_or none d = d :=
  ⟨rfl, rfl, rfl, rfl⟩

/-- Claim C9: each `FfiError` variant renders to its exact canonical one-line
text, and `Custom` renders its payload verbatim, the empty text included. -/
theorem ffi_error_to_string_exact (m : List Nat) :
    FfiError.to_string .NullPointer =
      [110, 117, 108, 108, 32, 112, 111, 105, 110, 116, 101, 114] ∧
    FfiError.to_string .InvalidUtf8 =
      [105, 110, 118, 97, 108, 105, 100, 32, 85, 84, 70, 45, 56, 32,
       115, 116, 114, 105, 110, 103] ∧
    FfiError.to_string .StringContainsNull =
      [115, 116, 114, 105, 110, 103, 32, 99, 111, 110, 116, 97, 105, 110, 115, 32,
       110, 117, 108, 108, 32, 98, 121, 116, 101] ∧
    FfiError.to_string (.Custom m) = m ∧
    FfiError.to_string (.Custom []) = [] :=
  ⟨by decide, by decide, by decide, rfl, rfl⟩

/-- Claim C10: `check_all_not_null` succeeds exactly when every pointer is
non-null, fails with `NullPointer` as soon as some pointer is null, and accepts
the empty list vacuously. -/
theorem check_all_not_null_ok_iff (ps : List (Option Unit)) :
    (check_all_not_null ps = .ok () ↔ ∀ p ∈ ps, p.isSome = true) ∧
    ((∃ p ∈ ps, p = none) → check_all_not_null ps = .error .NullPointer) ∧
    check_all_not_null ([] : List (Option Unit)) = .ok () := by
  refine ⟨?_, ?_, rfl⟩
  · induction ps with
    | nil => simp [check_all_not_null]
    | cons p rest ih =>
      cases p with
      | none => simp [check_all_not_null]
      | some u => simp [check_all_not_null, ih]
  · intro ⟨p, hmem, hnull⟩
    subst hnull
    induction ps with
    | nil => cases hmem
    | cons q rest ih =>
      cases hmem with
      | head => simp [check_all_not_null]
      | tail _ hm =>
        cases q with
        | none => simp [check_all_not_null]
        | some u => simpa [check_all_not_null] using ih hm

/-- Witness for C10: a list with a null pointer is rejected; the empty list passes. -/
theorem check_all_not_null_witness :
    check_all_not_null [some (), none] = .error .NullPointer ∧
    check_all_not_null ([] : List (Option Unit)) = .ok () :=
  ⟨(check_all_not_null_ok_iff [some (), none]).2.1 ⟨none, by simp, rfl⟩,
   (check_all_not_null_ok_iff []).2.2⟩
